import Mathlib

/-!
# ModernNav sync / auth engine — verification development

Shallow embedding of the client-side synchronization and authentication
engine of the ModernNav dashboard, together with proofs and refutations of
the specified properties.

Embedded source files:
* `src/services/storage.ts` — the active client service (imported by
  `App.tsx`): local cache wrappers, `processSync` reconciliation,
  `_saveItem` / `trySync` push logic, `ensureAccessToken` refresh
  coalescing, `logout`.
* `src/functions/api/update.ts` (second, stateless iteration) — the
  stateless token codec: `sign`, `verify`, `generateToken`.
* `src/functions/api/auth.ts` — the server-side refresh / logout semantics
  used to model the session environment.
* `src/unnamed/part_004` — the timer-debounce iteration of `_saveItem`.

JavaScript strings are modelled as `List Char`.  HMAC-SHA256 + base64
(`sign`) is modelled as a deterministic keyed code that is injective in
`(data, secret)` and emits only digit / `,` / `;` characters — mirroring
the fact that real base64 output never contains the `.` separator.
`Date.now()` timestamps are explicit `Nat` arguments.
-/

namespace ModernNav

/-! ## Token codec (src/functions/api/update.ts, stateless iteration) -/

/-- The two token kinds: `'access' | 'refresh'` (update.ts `generateToken`). -/
inductive TokenKind where
  | access
  | refresh
deriving DecidableEq, Repr

/-- The token payload `{ exp, type }` serialized into the first token half
(update.ts:91-99). `exp` is a millisecond timestamp. -/
structure Payload where
  exp : Nat
  kind : TokenKind
deriving DecidableEq, Repr

/-- JS `String.prototype.split(sep)` over a character list. Always returns at
least one part; `"a.b.c"` splits into three parts of which `verify`'s
destructuring takes the first two. -/
def jsSplit (sep : Char) : List Char → List (List Char)
  | [] => [[]]
  | c :: cs =>
    match jsSplit sep cs with
    | [] => [[]]
    | h :: t => if c = sep then [] :: h :: t else (c :: h) :: t

/-- Decimal digit character (JS number serialization); out-of-range values
collapse to `'0'`, which never arise from the `% 10` call sites. -/
def digitChar (n : Nat) : Char :=
  List.getD ['0', '1', '2', '3', '4', '5', '6', '7', '8', '9'] n '0'

/-- Decimal representation of a natural number, with explicit structural fuel
so the kernel can evaluate it. -/
def natCharsAux : Nat → Nat → List Char
  | 0, _ => []
  | fuel + 1, n =>
    if n < 10 then [digitChar n]
    else natCharsAux fuel (n / 10) ++ [digitChar (n % 10)]

/-- Decimal representation of a natural number (model of JS number→string). -/
def natChars (n : Nat) : List Char := natCharsAux (n + 1) n

/-- Escape a character into a digit block terminated by `,` (used by the
`sign` model so its output never contains the `.` separator). -/
def charEsc (c : Char) : List Char := natChars c.toNat ++ [',']

/-- Escape a string into the digit/`,` alphabet; injective. -/
def sigEsc (l : List Char) : List Char := (l.map charEsc).flatten

/-- Model of `sign(data, secret)` — HMAC-SHA256 over `data` keyed by
`secret`, base64-encoded (update.ts:58-68).  Idealized as a deterministic
keyed code that is injective in `(data, secret)`; like base64, its output
never contains the `.` token separator. -/
def sign (data secret : List Char) : List Char :=
  sigEsc data ++ ';' :: sigEsc secret

/-- Serialized token kind (`"access"` / `"refresh"` inside the JSON). -/
def kindChar : TokenKind → Char
  | .access => 'a'
  | .refresh => 'r'

/-- Model of `btoa(JSON.stringify({ exp, type }))` (update.ts:97): an
injective textual encoding of the payload that never contains `.`. -/
def serializePayload (p : Payload) : List Char :=
  natChars p.exp ++ ';' :: [kindChar p.kind]

/-- Value of a decimal digit character, `none` on a non-digit. -/
def digitVal (c : Char) : Option Nat :=
  if '0' ≤ c ∧ c ≤ '9' then some (c.toNat - Char.toNat '0') else none

/-- Parse a decimal digit string, `none` on any non-digit. -/
def digitsValAux : List Char → Nat → Option Nat
  | [], acc => some acc
  | c :: cs, acc =>
    match digitVal c with
    | none => none
    | some d => digitsValAux cs (acc * 10 + d)

/-- Parse a serialized token kind character. -/
def parseKind : Char → Option TokenKind
  | 'a' => some TokenKind.access
  | 'r' => some TokenKind.refresh
  | _ => none

/-- Model of `JSON.parse(atob(payloadB64))` (update.ts:82): `none` models the
decode throwing, which `verify`'s catch turns into `false`. -/
def parsePayload (l : List Char) : Option Payload :=
  match jsSplit ';' l with
  | [ds, [kc]] =>
    match ds, digitsValAux ds 0, parseKind kc with
    | _ :: _, some n, some k => some ⟨n, k⟩
    | _, _, _ => none
  | _ => none

/-- `ACCESS_TTL = 30 * 60 * 1000` ms (update.ts:53). -/
def ACCESS_TTL : Nat := 30 * 60 * 1000

/-- `REFRESH_TTL = 7 * 24 * 60 * 60 * 1000` ms (update.ts:54). -/
def REFRESH_TTL : Nat := 7 * 24 * 60 * 60 * 1000

/-- TTL by token kind (update.ts:92). -/
def ttlOf : TokenKind → Nat
  | .access => ACCESS_TTL
  | .refresh => REFRESH_TTL

/-- `generateToken(type, secret)` (update.ts:91-100): serialize
`{exp: now + ttl, type}`, append the signature after `.`. -/
def generateToken (kind : TokenKind) (secret : List Char) (now : Nat) :
    List Char :=
  let payloadB64 := serializePayload ⟨now + ttlOf kind, kind⟩
  payloadB64 ++ '.' :: sign payloadB64 secret

/-- `verify(token, secret)` (update.ts:70-89): split on `.`; fail closed on
structure, signature, or expiry; rejects when `now > exp`.  A pure function
of `(token, secret, now)` — no stored revocation list. -/
def verify (token secret : List Char) (now : Nat) : Bool :=
  match jsSplit '.' token with
  | payloadB64 :: signatureB64 :: _ =>
    if payloadB64 = [] ∨ signatureB64 = [] then false
    else if signatureB64 ≠ sign payloadB64 secret then false
    else
      match parsePayload payloadB64 with
      | none => false
      | some payload => if now > payload.exp then false else true
  | _ => false

/-- The default shared secret `"admin"` (auth.ts:60, update.ts:136). -/
def adminSecret : List Char := ['a', 'd', 'm', 'i', 'n']

/-- A rotated shared secret, as stored by the password-update action. -/
def rotatedSecret : List Char := ['h', 'u', 'n', 't', 'e', 'r', '2']

/-! ## Local cache snapshots and pull reconciliation
(src/services/storage.ts, the service imported by `App.tsx`) -/

/-- The `StorageWrapper<T>` snapshot `{ data, updatedAt, _isDirty }`
(storage.ts:43-47). -/
structure StorageWrapper (T : Type) where
  data : T
  updatedAt : Nat
  _isDirty : Bool
deriving DecidableEq, Repr

/-- Shape of `JSON.parse(localStorage.getItem(key))` for a slice:
the stored text is absent, parses to a wrapper (an object with `'updatedAt' in
parsed`), parses to legacy raw data, or fails to parse. -/
inductive LocalRaw (T : Type) where
  | missing
  | wrapped (w : StorageWrapper T)
  | rawVal (t : T)
  | corrupt
deriving DecidableEq, Repr

/-- Shape of one slice field of the `/api/bootstrap` response: a wrapper
object, a truthy non-wrapper value, or absent/falsy (`null` and `undefined`
and `""` all take the falsy branches of `processSync`). -/
inductive CloudRaw (T : Type) where
  | wrapped (w : StorageWrapper T)
  | rawTruthy (t : T)
  | absent
deriving DecidableEq, Repr

/-- Result of `processSync` for one slice: the post-call cache content for
the key, the returned `val`, and the returned `updated` flag
(storage.ts:390-426). -/
structure SyncResult (T : Type) where
  newLocal : LocalRaw T
  val : T
  updated : Bool
deriving DecidableEq, Repr

/-- The per-slice reconciliation rule `processSync(key, defaultVal, cloudRaw)`
(storage.ts:390-426).  The local read normalizes missing/legacy/corrupt data
to `{data, updatedAt: 0, _isDirty: false}`; a non-wrapper truthy cloud value
gets `updatedAt: 1`; the cloud wrapper is adopted — and persisted verbatim,
including its `_isDirty` flag — iff the local snapshot is clean and strictly
older. -/
def processSync (defaultVal : T) (localRaw : LocalRaw T) (cloud : CloudRaw T) :
    SyncResult T :=
  let currentWrapper : StorageWrapper T :=
    match localRaw with
    | .missing => ⟨defaultVal, 0, false⟩
    | .wrapped w => w
    | .rawVal t => ⟨t, 0, false⟩
    | .corrupt => ⟨defaultVal, 0, false⟩
  let cloudWrapper : StorageWrapper T :=
    match cloud with
    | .wrapped w => w
    | .rawTruthy t => ⟨t, 1, false⟩
    | .absent => ⟨defaultVal, 0, false⟩
  if currentWrapper._isDirty = false ∧
      cloudWrapper.updatedAt > currentWrapper.updatedAt then
    ⟨.wrapped cloudWrapper, cloudWrapper.data, true⟩
  else
    ⟨localRaw, currentWrapper.data, false⟩

/-- Whether `syncPendingChanges`' `processKey` would push this cache entry:
`wrapper && wrapper._isDirty` (storage.ts:479). -/
def queuedForPush : LocalRaw T → Bool
  | .wrapped w => w._isDirty
  | _ => false

/-- Dirty flag of the stored cache entry, as `checkGlobalDirtyState` reads it
(storage.ts:209). -/
def storedDirty : LocalRaw T → Bool
  | .wrapped w => w._isDirty
  | _ => false

/-! ## Push path: `_saveItem` / `trySync` (src/services/storage.ts:287-353) -/

/-- Response of one `/api/update` call: an HTTP status or a network error
(the `fetch` rejecting). -/
inductive UpdResp where
  | status (s : Nat)
  | netError
deriving DecidableEq, Repr

/-- Environment scripting the remote side for one `_saveItem` run:
the outcome of the (single possible) forced silent refresh, and the
response to the i-th `/api/update` call.  Token values are opaque `Nat`s. -/
structure PushEnv where
  refreshResult : Option Nat
  upd : Nat → UpdResp

/-- Observable trace of one `trySync` run: number of `/api/update` calls,
number of refresh network calls, number of `_accessToken = null`
invalidations, the wrapper's final `_isDirty`, and whether the
sync-failure notification fired. -/
structure PushTrace where
  updateCalls : Nat
  refreshCalls : Nat
  invalidations : Nat
  dirty : Bool
  errNotified : Bool
deriving DecidableEq, Repr

/-- JS `res.ok`: status in [200, 300). -/
def isOkStatus (s : Nat) : Bool := 200 ≤ s ∧ s < 300

/-- The recursive `trySync(true)` call (storage.ts:314-352 with
`forceRefresh = true`): set `_accessToken = null`, refresh once via
`ensureAccessToken`, stop if it fails, otherwise retry the update exactly
once; since `forceRefresh` is now true, a second 401 falls through to the
`res.ok` check and is thrown as a hard failure (caught, slice left dirty). -/
def trySyncRetry (env : PushEnv) (t : PushTrace) : PushTrace :=
  let t := { t with invalidations := t.invalidations + 1,
                    refreshCalls := t.refreshCalls + 1 }
  match env.refreshResult with
  | none => t
  | some _ =>
    match env.upd t.updateCalls with
    | .netError => { t with updateCalls := t.updateCalls + 1,
                            errNotified := true }
    | .status s =>
      let t := { t with updateCalls := t.updateCalls + 1 }
      if isOkStatus s then { t with dirty := false }
      else { t with errNotified := true }

/-- The initial `trySync()` call (storage.ts:314-352, `forceRefresh = false`)
for an authenticated save (the wrapper was committed locally with
`_isDirty = true`): one update call; on 401 recurse once with
`forceRefresh = true`; on ok clear the dirty flag; otherwise throw →
catch → notify, slice left dirty. -/
def trySyncMain (env : PushEnv) : PushTrace :=
  let t : PushTrace := ⟨0, 0, 0, true, false⟩
  match env.upd 0 with
  | .netError => { t with updateCalls := 1, errNotified := true }
  | .status s =>
    let t := { t with updateCalls := 1 }
    if s = 401 then trySyncRetry env t
    else if isOkStatus s then { t with dirty := false }
    else { t with errNotified := true }

/-- What the success branch of `trySync` writes back (storage.ts:338-340,
likewise syncPendingChanges:493-495): the pushed wrapper with `_isDirty`
flipped to false, written unconditionally.  `current` is the cache content
at response time; the source closure never consults it — there is no
staleness check against a newer concurrent write. -/
def onPushSuccess (pushed : StorageWrapper T) (current : LocalRaw T) :
    LocalRaw T :=
  .wrapped ⟨pushed.data, pushed.updatedAt, false⟩

/-- Result of one `_saveItem` call: the cache content it leaves for the key,
the bodies of the `/api/update` calls it issued, and the network trace. -/
structure SaveOut (T : Type) where
  store : LocalRaw T
  pushedBodies : List (StorageWrapper T)
  trace : PushTrace
deriving Repr

/-- `_saveItem(key, data, type)` (storage.ts:287-353): stamp
`updatedAt = Date.now()`, set `_isDirty` to whether a token is available
(the deliberate "KEY FIX": guest saves are committed clean), write the
wrapper locally, and only when dirty run `trySync`.  The sequential model
runs the body to completion; every issued update call carries this
save's wrapper. -/
def saveItem (env : PushEnv) (token : Option Nat) (d : T) (timestamp : Nat) :
    SaveOut T :=
  let isAuthenticated := token.isSome
  let wrapper : StorageWrapper T := ⟨d, timestamp, isAuthenticated⟩
  if wrapper._isDirty = false then
    ⟨.wrapped wrapper, [], ⟨0, 0, 0, false, false⟩⟩
  else
    let t := trySyncMain env
    let st : LocalRaw T :=
      if t.dirty then .wrapped wrapper
      else onPushSuccess wrapper (.wrapped wrapper)
    ⟨st, List.replicate t.updateCalls wrapper, t⟩

/-- A burst of rapid saves through the active `_saveItem`: the update-call
bodies of each save, concatenated.  The active service has no debounce, so
every authenticated save issues its own call(s). -/
def saveBurst (env : PushEnv) (token : Option Nat) (saves : List (T × Nat)) :
    List (StorageWrapper T) :=
  (saves.map fun s => (saveItem env token s.1 s.2).pushedBodies).flatten

/-- An environment where every `/api/update` call succeeds with 200 and the
forced refresh would succeed. -/
def envAllOk : PushEnv := ⟨some 7, fun _ => .status 200⟩

/-- An environment where the first and second `/api/update` calls both
return 401 and the silent refresh succeeds. -/
def envTwo401 : PushEnv := ⟨some 7, fun _ => .status 401⟩

/-! ## Timer debounce iteration (src/unnamed/part_004:158-210) -/

/-- Debounce state: the single pending `setTimeout` with the captured
payload, or none (part_004:8, 162-164). -/
structure DebounceSt (T : Type) where
  pendingTimer : Option T
deriving DecidableEq, Repr

/-- One `_saveItem` of the timer-debounce iteration: commit locally, then
`clearTimeout` of the pending timer and `setTimeout` capturing THIS call's
payload (part_004:158-164).  Earlier pending payloads are superseded. -/
def debounceSave (st : DebounceSt T) (d : T) : DebounceSt T :=
  { pendingTimer := some d }

/-- A burst of saves within one debounce window: each save cancels and
replaces the timer. -/
def runDebounceSaves (st : DebounceSt T) (ds : List T) : DebounceSt T :=
  ds.foldl debounceSave st

/-- The timer firing after the window elapses (part_004:164-209): when a
token is available the callback issues exactly one `/api/update` call with
the captured payload; the returned list holds the bodies of the issued
calls. -/
def debounceFire (st : DebounceSt T) (token : Option Nat) : List T :=
  match st.pendingTimer, token with
  | some d, some _ => [d]
  | _, _ => []

/-! ## Session manager: refresh coalescing and logout
(src/services/storage.ts:107-162, 242-254; src/functions/api/auth.ts) -/

/-- Interleaving state of `ensureAccessToken` callers on a single event loop:
the module globals `_accessToken`, `_isRefreshing`, `_refreshSubscribers`,
plus instrumentation — which caller's frame awaits `tryRefreshToken`,
how many refresh network calls were issued, and the resolved callers with
their results. -/
structure CoalSt where
  accessToken : Option Nat
  isRefreshing : Bool
  subscribers : List Nat
  initiator : Option Nat
  refreshCalls : Nat
  resolved : List (Nat × Option Nat)
deriving DecidableEq, Repr

/-- The initial state: no token, no refresh in flight. -/
def coalInit : CoalSt := ⟨none, false, [], none, 0, []⟩

/-- The synchronous prefix of one `ensureAccessToken()` invocation
(storage.ts:140-150) — everything up to the first `await`, which runs
atomically on the event loop: return the cached token immediately, or
queue as a refresh subscriber, or start a refresh (one network call). -/
def callEnsure (st : CoalSt) (caller : Nat) : CoalSt :=
  match st.accessToken with
  | some tk => { st with resolved := st.resolved ++ [(caller, some tk)] }
  | none =>
    if st.isRefreshing then
      { st with subscribers := st.subscribers ++ [caller] }
    else
      { st with isRefreshing := true,
                refreshCalls := st.refreshCalls + 1,
                initiator := some caller }

/-- Completion of the in-flight `tryRefreshToken` (storage.ts:117-137,
150-161): store the result, drop the in-flight flag, resolve the initiating
caller and drain every queued subscriber with the single refresh's result
(`onRefreshed` on success; the `''` empty-token resolution on failure is
modelled as `none`). -/
def completeRefresh (st : CoalSt) (result : Option Nat) : CoalSt :=
  let resolvedInit : List (Nat × Option Nat) :=
    match st.initiator with
    | some c => [(c, result)]
    | none => []
  { accessToken := result, isRefreshing := false, subscribers := [],
    initiator := none, refreshCalls := st.refreshCalls,
    resolved := st.resolved ++ resolvedInit ++
      st.subscribers.map fun c => (c, result) }

/-- N callers invoking `ensureAccessToken` while the refresh is in flight:
their synchronous prefixes run in arrival order. -/
def runCalls (st : CoalSt) (callers : List Nat) : CoalSt :=
  callers.foldl callEnsure st

/-- Client + remote session state for the logout scenario: the in-memory
`_accessToken` and whether the HttpOnly refresh credential (browser cookie
plus the server's acceptance of it) is still valid. -/
structure SessionSt where
  accessToken : Option Nat
  cookieValid : Bool
deriving DecidableEq, Repr

/-- `logout()` (storage.ts:242-254): best-effort `POST {action: 'logout'}` —
the server clears the refresh credential only when the call reaches it
(auth.ts:110-116) — then the `finally` block clears `_accessToken`
unconditionally. -/
def logout (networkOk : Bool) (st : SessionSt) : SessionSt :=
  let st := if networkOk then { st with cookieValid := false } else st
  { st with accessToken := none }

/-- `tryRefreshToken()` (storage.ts:117-137) against the auth endpoint
(auth.ts:81-107): succeeds with a fresh token iff the refresh credential is
still valid, else clears the cached token and reports absence. -/
def tryRefreshTokenS (newTok : Nat) (st : SessionSt) : Option Nat × SessionSt :=
  if st.cookieValid then (some newTok, { st with accessToken := some newTok })
  else (none, { st with accessToken := none })

/-- `ensureAccessToken()` for a single caller with no refresh already in
flight (storage.ts:140-162): return the cached token, otherwise refresh. -/
def ensureAccessTokenS (newTok : Nat) (st : SessionSt) :
    Option Nat × SessionSt :=
  match st.accessToken with
  | some tk => (some tk, st)
  | none => tryRefreshTokenS newTok st

/-! ## Helper lemmas -/

theorem jsSplit_ne_nil (sep : Char) (l : List Char) : jsSplit sep l ≠ [] := by
  induction l with
  | nil => simp [jsSplit]
  | cons c cs ih =>
    simp only [jsSplit]
    rcases hsp : jsSplit sep cs with _ | ⟨hh, tt⟩
    · simp
    · by_cases hc : c = sep <;> simp [hc]

theorem jsSplit_no_sep (sep : Char) (l : List Char) (h : sep ∉ l) :
    jsSplit sep l = [l] := by
  induction l with
  | nil => rfl
  | cons c cs ih =>
    simp only [List.mem_cons, not_or] at h
    have hc : ¬ c = sep := fun hcc => h.1 hcc.symm
    simp [jsSplit, ih h.2, hc]

theorem jsSplit_append (sep : Char) (l r : List Char) (h : sep ∉ l) :
    jsSplit sep (l ++ sep :: r) = l :: jsSplit sep r := by
  induction l with
  | nil =>
    simp only [List.nil_append, jsSplit]
    rcases hr : jsSplit sep r with _ | ⟨hh, tt⟩
    · exact absurd hr (jsSplit_ne_nil sep r)
    · simp
  | cons c cs ih =>
    simp only [List.mem_cons, not_or] at h
    have hc : ¬ c = sep := fun hcc => h.1 hcc.symm
    simp [jsSplit, ih h.2, hc]

theorem digitChar_ne_dot (n : Nat) : digitChar n ≠ '.' := by
  unfold digitChar
  by_cases h : n < 10
  · interval_cases n <;> decide
  · rw [List.getD_eq_default]
    · decide
    · simpa using Nat.le_of_not_lt h

theorem dot_not_mem_natCharsAux (fuel : Nat) :
    ∀ n, '.' ∉ natCharsAux fuel n := by
  induction fuel with
  | zero => intro n; simp [natCharsAux]
  | succ f ih =>
    intro n
    simp only [natCharsAux]
    by_cases h : n < 10
    · simp only [if_pos h, List.mem_singleton]
      exact Ne.symm (digitChar_ne_dot n)
    · simp only [if_neg h, List.mem_append, List.mem_singleton, not_or]
      exact ⟨ih _, Ne.symm (digitChar_ne_dot _)⟩

theorem dot_not_mem_natChars (n : Nat) : '.' ∉ natChars n :=
  dot_not_mem_natCharsAux _ _

theorem natChars_ne_nil (n : Nat) : natChars n ≠ [] := by
  unfold natChars natCharsAux
  by_cases h : n < 10 <;> simp [h]

theorem dot_not_mem_charEsc (c : Char) : '.' ∉ charEsc c := by
  unfold charEsc
  simp only [List.mem_append, List.mem_singleton, not_or]
  exact ⟨dot_not_mem_natChars _, by decide⟩

theorem dot_not_mem_sigEsc (l : List Char) : '.' ∉ sigEsc l := by
  unfold sigEsc
  intro hmem
  rcases List.mem_flatten.mp hmem with ⟨blk, hblk, hdot⟩
  rcases List.mem_map.mp hblk with ⟨c, _, rfl⟩
  exact dot_not_mem_charEsc c hdot

theorem dot_not_mem_sign (d s : List Char) : '.' ∉ sign d s := by
  unfold sign
  simp only [List.mem_append, List.mem_cons, not_or]
  exact ⟨dot_not_mem_sigEsc d, by decide, dot_not_mem_sigEsc s⟩

theorem kindChar_ne_dot (k : TokenKind) : kindChar k ≠ '.' := by
  cases k <;> decide

theorem dot_not_mem_serializePayload (p : Payload) :
    '.' ∉ serializePayload p := by
  unfold serializePayload
  intro hmem
  rcases List.mem_append.mp hmem with hm | hm
  · exact dot_not_mem_natChars _ hm
  · rcases List.mem_cons.mp hm with he | hm2
    · exact absurd he (by decide)
    · exact kindChar_ne_dot p.kind (List.mem_singleton.mp hm2).symm

theorem serializePayload_ne_nil (p : Payload) : serializePayload p ≠ [] := by
  unfold serializePayload
  simp

theorem sign_ne_nil (d s : List Char) : sign d s ≠ [] := by
  unfold sign
  simp

theorem runCalls_refreshing (cs : List Nat) :
    ∀ subs init k res,
      runCalls ⟨none, true, subs, init, k, res⟩ cs =
        ⟨none, true, subs ++ cs, init, k, res⟩ := by
  induction cs with
  | nil => intro subs init k res; simp [runCalls]
  | cons c' cs' ih =>
    intro subs init k res
    have hstep : callEnsure ⟨none, true, subs, init, k, res⟩ c' =
        ⟨none, true, subs ++ [c'], init, k, res⟩ := by
      simp [callEnsure]
    calc runCalls ⟨none, true, subs, init, k, res⟩ (c' :: cs')
        = runCalls ⟨none, true, subs ++ [c'], init, k, res⟩ cs' := by
          simp [runCalls, hstep]
      _ = ⟨none, true, subs ++ [c'] ++ cs', init, k, res⟩ := ih _ _ _ _
      _ = ⟨none, true, subs ++ (c' :: cs'), init, k, res⟩ := by
          simp

/-! ## Claim theorems -/

/-- C1 (*Dirty-wins-pull*, confirmed): for any slice whose stored snapshot is
dirty at reconciliation time, `processSync` leaves the cache entry untouched
(whatever the remote snapshot holds and however new its `updatedAt`), returns
the local value with `updated = false`, and the entry still satisfies the
`syncPendingChanges` push condition. -/
theorem dirty_wins_pull {T : Type} (defaultVal x : T) (u : Nat)
    (cloud : CloudRaw T) :
    processSync defaultVal (.wrapped ⟨x, u, true⟩) cloud =
      ⟨.wrapped ⟨x, u, true⟩, x, false⟩ ∧
    queuedForPush
      (processSync defaultVal (.wrapped ⟨x, u, true⟩) cloud).newLocal = true := by
  have h : processSync defaultVal (LocalRaw.wrapped ⟨x, u, true⟩) cloud =
      ⟨.wrapped ⟨x, u, true⟩, x, false⟩ := by
    unfold processSync
    simp
  exact ⟨h, by rw [h]; rfl⟩

/-- C2 counterexample: a clean local snapshot and a strictly newer remote
wrapper whose `_isDirty` flag is `true` (which is what `_saveItem` uploads,
since the whole wrapper is pushed before the flag is cleared): `processSync`
persists the remote wrapper verbatim, so the slice is stored with
`dirty == true`, not `dirty == false` as the claim states. -/
theorem clean_pull_dirty_flag_cex :
    processSync (0 : Nat) (.wrapped ⟨0, 0, false⟩) (.wrapped ⟨1, 5, true⟩) =
      ⟨.wrapped ⟨1, 5, true⟩, 1, true⟩ ∧
    storedDirty (processSync (0 : Nat) (.wrapped ⟨0, 0, false⟩)
      (.wrapped ⟨1, 5, true⟩)).newLocal = true := by
  decide

/-- C2 (amended): for a clean local snapshot and a remote wrapper with
`remote.updatedAt > local.updatedAt`, the adopted value is persisted exactly
as the remote sent it — data, `updatedAt` AND `_isDirty` are copied verbatim;
it is stored with `dirty == false` exactly when the remote snapshot's own
flag is false. -/
theorem clean_pull_adopts_remote_wrapper {T : Type} (defaultVal x y : T)
    (u v : Nat) (b : Bool) (h : v > u) :
    processSync defaultVal (.wrapped ⟨x, u, false⟩) (.wrapped ⟨y, v, b⟩) =
      ⟨.wrapped ⟨y, v, b⟩, y, true⟩ := by
  unfold processSync
  simp [h]

/-- Witness for the amended C2 theorem at a concrete clean remote wrapper. -/
theorem clean_pull_adopts_remote_wrapper_witness :
    processSync (0 : Nat) (.wrapped ⟨0, 0, false⟩) (.wrapped ⟨3, 9, false⟩) =
      ⟨.wrapped ⟨3, 9, false⟩, 3, true⟩ :=
  clean_pull_adopts_remote_wrapper 0 0 3 0 9 false (by decide)

/-- C3 counterexample: an unauthenticated (guest) save stops after the local
commit and issues no update call and no error — but the snapshot is stored
with `_isDirty = false`, not dirty as the claim states (the deliberate
"KEY FIX" comment in `_saveItem`: guest saves are treated as clean local
saves so no sync spinner appears). -/
theorem guest_save_marked_clean_cex :
    (saveItem envAllOk none (7 : Nat) 100).store = .wrapped ⟨7, 100, false⟩ ∧
    (saveItem envAllOk none (7 : Nat) 100).pushedBodies = [] ∧
    (saveItem envAllOk none (7 : Nat) 100).trace.errNotified = false ∧
    storedDirty (saveItem envAllOk none (7 : Nat) 100).store = false := by
  decide

/-- C3 (amended): a save with no access token available commits locally and
stops — no `/api/update` call, no refresh, no invalidation, no error — and
the snapshot is stored marked CLEAN (`_isDirty = false`), deliberately, so
guests never see a pending-sync state. -/
theorem guest_save_local_only {T : Type} (env : PushEnv) (d : T) (ts : Nat) :
    saveItem env none d ts =
      ⟨.wrapped ⟨d, ts, false⟩, [], ⟨0, 0, 0, false, false⟩⟩ := by
  unfold saveItem
  simp

/-- C4 counterexample: five rapid authenticated saves through the active
`_saveItem` (src/services/storage.ts, which has no debounce) issue five
outbound update calls — one per save, each carrying its own payload — not
the single call with the final payload that the claim states. -/
theorem rapid_saves_call_count_cex :
    saveBurst envAllOk (some 1)
        [((1 : Nat), 1000), (2, 1050), (3, 1100), (4, 1150), (5, 1200)] =
      [⟨1, 1000, true⟩, ⟨2, 1050, true⟩, ⟨3, 1100, true⟩,
       ⟨4, 1150, true⟩, ⟨5, 1200, true⟩] ∧
    (saveBurst envAllOk (some 1)
        [((1 : Nat), 1000), (2, 1050), (3, 1100), (4, 1150), (5, 1200)]).length
      = 5 := by
  decide

/-- C4 (amended): the timer-debounce iteration (src/unnamed/part_004) does
coalesce a burst: every save in the window cancels and replaces the single
pending timer with its own payload, so when the timer fires, exactly one
outbound update call is made and it carries the burst's last payload.  The
active service instead issues one call per save (see the counterexample). -/
theorem debounce_last_payload {T : Type} (ds : List T) (d : T) (tok : Nat) :
    debounceFire (runDebounceSaves ⟨none⟩ (ds ++ [d])) (some tok) = [d] := by
  simp [runDebounceSaves, debounceFire, List.foldl_append, debounceSave]

/-- C5 (confirmed): when the first `/api/update` call returns 401, `trySync`
performs exactly one token invalidation and one silent refresh; if the
refresh fails the attempt ends with no retry and the slice dirty; if it
succeeds there is exactly one retry (two update calls in total), and a
second 401 — or any other failure — ends the attempt as a notified hard
failure with the slice left dirty; a success clears the flag. -/
theorem single_refresh_retry_on_401 (env : PushEnv)
    (h401 : env.upd 0 = .status 401) :
    (trySyncMain env).invalidations = 1 ∧
    (trySyncMain env).refreshCalls = 1 ∧
    (env.refreshResult = none → (trySyncMain env).updateCalls = 1 ∧
      (trySyncMain env).dirty = true) ∧
    (∀ tk, env.refreshResult = some tk →
      (trySyncMain env).updateCalls = 2 ∧
      (env.upd 1 = .status 401 → (trySyncMain env).dirty = true ∧
        (trySyncMain env).errNotified = true) ∧
      (∀ s, env.upd 1 = .status s → isOkStatus s = true →
        (trySyncMain env).dirty = false)) := by
  have hmain : trySyncMain env = trySyncRetry env ⟨1, 0, 0, true, false⟩ := by
    simp [trySyncMain, h401]
  rw [hmain]
  rcases hrr : env.refreshResult with _ | tk
  · have hres : trySyncRetry env ⟨1, 0, 0, true, false⟩ =
        ⟨1, 1, 1, true, false⟩ := by
      simp [trySyncRetry, hrr]
    rw [hres]
    refine ⟨rfl, rfl, fun _ => ⟨rfl, rfl⟩, ?_⟩
    intro tk htk
    cases htk
  · rcases hupd : env.upd 1 with s | _
    · by_cases hok : isOkStatus s = true
      · have hres : trySyncRetry env ⟨1, 0, 0, true, false⟩ =
            ⟨2, 1, 1, false, false⟩ := by
          simp [trySyncRetry, hrr, hupd, hok]
        rw [hres]
        refine ⟨rfl, rfl, ?_, ?_⟩
        · intro h0
          cases h0
        · intro tk' _
          refine ⟨rfl, ?_, fun s' hs' hok' => rfl⟩
          intro h401b
          injection h401b with hs401
          subst hs401
          exact absurd hok (by decide)
      · have hres : trySyncRetry env ⟨1, 0, 0, true, false⟩ =
            ⟨2, 1, 1, true, true⟩ := by
          simp [trySyncRetry, hrr, hupd, hok]
        rw [hres]
        refine ⟨rfl, rfl, ?_, ?_⟩
        · intro h0
          cases h0
        · intro tk' _
          refine ⟨rfl, fun _ => ⟨rfl, rfl⟩, ?_⟩
          intro s' hs' hok'
          injection hs' with hss
          subst hss
          exact absurd hok' hok
    · have hres : trySyncRetry env ⟨1, 0, 0, true, false⟩ =
          ⟨2, 1, 1, true, true⟩ := by
        simp [trySyncRetry, hrr, hupd]
      rw [hres]
      refine ⟨rfl, rfl, ?_, ?_⟩
      · intro h0
        cases h0
      · intro tk' _
        refine ⟨rfl, ?_, ?_⟩
        · intro h401b
          cases h401b
        · intro s' hs' _
          cases hs'

/-- Witness for C5 at the environment where both update calls return 401:
one refresh, two update calls, the slice ends dirty. -/
theorem single_refresh_retry_witness :
    (trySyncMain envTwo401).refreshCalls = 1 ∧
    (trySyncMain envTwo401).updateCalls = 2 ∧
    (trySyncMain envTwo401).dirty = true := by
  have h := single_refresh_retry_on_401 envTwo401 rfl
  exact ⟨h.2.1, (h.2.2.2 7 rfl).1, ((h.2.2.2 7 rfl).2.1 rfl).1⟩

/-- C6 counterexample: the success write-back after a push rewrites the
pushed wrapper with `_isDirty = false` UNCONDITIONALLY: with a newer value
(data 2, updatedAt 10, dirty) sitting in the cache at response time, the
completion of a push of the older wrapper (data 1, updatedAt 5) replaces the
cache with the old data marked clean — the newer pending value is neither
kept nor left dirty, contradicting the claimed staleness check. -/
theorem clean_overwrites_newer_cex :
    onPushSuccess (⟨1, 5, true⟩ : StorageWrapper Nat)
        (.wrapped ⟨2, 10, true⟩) = .wrapped ⟨1, 5, false⟩ ∧
    onPushSuccess (⟨1, 5, true⟩ : StorageWrapper Nat)
        (.wrapped ⟨2, 10, true⟩) ≠ .wrapped ⟨2, 10, true⟩ ∧
    storedDirty (onPushSuccess (⟨1, 5, true⟩ : StorageWrapper Nat)
        (.wrapped ⟨2, 10, true⟩)) = false := by
  decide

/-- C6 (amended): the post-push clean step preserves the pushed snapshot's
`data` and `updatedAt` and flips only `_isDirty` — but it is applied
unconditionally: its result is independent of whatever the cache holds at
response time; there is no check that the pushed value still matches the
cache, so a newer concurrent write is overwritten. -/
theorem push_success_unconditional_clean {T : Type}
    (pushed : StorageWrapper T) (current current' : LocalRaw T) :
    onPushSuccess pushed current = onPushSuccess pushed current' ∧
    onPushSuccess pushed current =
      .wrapped ⟨pushed.data, pushed.updatedAt, false⟩ :=
  ⟨rfl, rfl⟩

/-- C7 counterexample: an access token issued under the default secret
`"admin"` at time 0 is accepted (well before its 30-minute expiry) while the
secret is unchanged, but after the shared secret is rotated, `verify`
recomputes the signature with the NEW secret and rejects the same unexpired
token — contradicting the claim that rotation leaves issued tokens valid. -/
theorem rotation_old_token_rejected_cex :
    verify (generateToken .access adminSecret 0) adminSecret 1 = true ∧
    verify (generateToken .access adminSecret 0) rotatedSecret 1 = false := by
  decide

/-- C7 (amended): stateless tokens are HMAC-signed with the shared secret
itself, so changing the secret via the password-update action retroactively
invalidates every token issued under the old secret, unexpired or not:
whenever the keyed MAC values under the two secrets differ (collision
freedom of HMAC), `verify` under the rotated secret returns `false`.  (Only
the historical KV-session server iteration kept sessions alive across a
password change.) -/
theorem rotation_invalidates_stateless_tokens (kind : TokenKind)
    (oldS newS : List Char) (issuedAt now : Nat)
    (h : sign (serializePayload ⟨issuedAt + ttlOf kind, kind⟩) oldS ≠
         sign (serializePayload ⟨issuedAt + ttlOf kind, kind⟩) newS) :
    verify (generateToken kind oldS issuedAt) newS now = false := by
  have hsplit : jsSplit '.' (generateToken kind oldS issuedAt) =
      serializePayload ⟨issuedAt + ttlOf kind, kind⟩ ::
        jsSplit '.' (sign (serializePayload ⟨issuedAt + ttlOf kind, kind⟩) oldS) := by
    unfold generateToken
    exact jsSplit_append '.' _ _ (dot_not_mem_serializePayload _)
  have hsig : jsSplit '.'
      (sign (serializePayload ⟨issuedAt + ttlOf kind, kind⟩) oldS) =
      [sign (serializePayload ⟨issuedAt + ttlOf kind, kind⟩) oldS] :=
    jsSplit_no_sep _ _ (dot_not_mem_sign _ _)
  simp [verify, hsplit, hsig, h]

/-- Witness for the amended C7 theorem: the concrete rotation from `"admin"`
to `"hunter2"` rejects the old access token. -/
theorem rotation_invalidates_witness :
    verify (generateToken .access adminSecret 0) rotatedSecret 5 = false :=
  rotation_invalidates_stateless_tokens .access adminSecret rotatedSecret 0 5
    (by decide)

/-- C8 counterexample: `logout()` whose network call failed clears the local
token (first conjunct), but the refresh credential survives, so the next
`ensureToken()` silently refreshes and returns a fresh token — NOT absent as
the claim states. -/
theorem logout_then_ensure_cex :
    (logout false ⟨some 1, true⟩).accessToken = none ∧
    (ensureAccessTokenS 2 (logout false ⟨some 1, true⟩)).1 = some 2 := by
  decide

/-- C8 (amended): `logout()` clears the in-memory access token
unconditionally — even when the network call failed — so the old token is
never returned again; after a logout whose remote call succeeded (refresh
credential invalidated) a subsequent `ensureToken()` returns absent; but
when the remote call failed the refresh credential survives, and
`ensureToken()` may silently re-authenticate. -/
theorem logout_clears_local_unconditionally (ok : Bool) (st : SessionSt)
    (newTok : Nat) :
    (logout ok st).accessToken = none ∧
    (ensureAccessTokenS newTok (logout true st)).1 = none ∧
    (logout false st).cookieValid = st.cookieValid := by
  refine ⟨rfl, ?_, rfl⟩
  simp [logout, ensureAccessTokenS, tryRefreshTokenS]

/-- C9 (*Refresh coalescing*, confirmed): starting with no token and no
refresh in flight, N ≥ 1 `ensureAccessToken()` callers arriving while the
refresh runs trigger exactly one refresh network call — the first caller
starts it, every later caller is queued as a subscriber — and the single
completion resolves all N callers with its token, draining the queue. -/
theorem refresh_coalescing_single_call (c : Nat) (cs : List Nat) (tok : Nat) :
    (completeRefresh (runCalls coalInit (c :: cs)) (some tok)).refreshCalls
      = 1 ∧
    (completeRefresh (runCalls coalInit (c :: cs)) (some tok)).resolved =
      (c :: cs).map (fun i => (i, some tok)) ∧
    (completeRefresh (runCalls coalInit (c :: cs)) (some tok)).subscribers
      = [] := by
  have hfirst : callEnsure coalInit c = ⟨none, true, [], some c, 1, []⟩ := by
    simp [callEnsure, coalInit]
  have hrun : runCalls coalInit (c :: cs) = ⟨none, true, cs, some c, 1, []⟩ := by
    calc runCalls coalInit (c :: cs)
        = runCalls ⟨none, true, [], some c, 1, []⟩ cs := by
          simp [runCalls, hfirst]
      _ = ⟨none, true, [] ++ cs, some c, 1, []⟩ := runCalls_refreshing _ _ _ _ _
      _ = ⟨none, true, cs, some c, 1, []⟩ := by simp
  rw [hrun]
  simp [completeRefresh]

/-- C10 (confirmed): `verify` fails closed, returning `false` (never
throwing — every decode failure is caught) whenever the token has no
separator (the split yields a single part), the recomputed signature over
the payload half differs from the attached one, the payload half does not
decode, or `now` is past the embedded expiry; it is a total pure function
of `(token, secret, now)` alone. -/
theorem verify_fails_closed (token secret : List Char) (now : Nat) :
    ((jsSplit '.' token).tail = [] → verify token secret now = false) ∧
    (∀ p s rest, jsSplit '.' token = p :: s :: rest →
      s ≠ sign p secret → verify token secret now = false) ∧
    (∀ p s rest, jsSplit '.' token = p :: s :: rest →
      parsePayload p = none → verify token secret now = false) ∧
    (∀ p s rest pl, jsSplit '.' token = p :: s :: rest →
      parsePayload p = some pl → now > pl.exp →
      verify token secret now = false) := by
  refine ⟨?_, ?_, ?_, ?_⟩
  · intro htail
    unfold verify
    rcases hsp : jsSplit '.' token with _ | ⟨p, _ | ⟨s, rest⟩⟩
    · rfl
    · rfl
    · rw [hsp] at htail
      cases htail
  · intro p s rest hsp hs
    simp [verify, hsp, hs]
  · intro p s rest hsp hparse
    simp [verify, hsp, hparse]
  · intro p s rest pl hsp hparse hexp
    simp [verify, hsp, hparse, hexp]

/-- Witness for C10: a separator-free token and a token with a forged
signature are both rejected. -/
theorem verify_fails_closed_witness :
    verify ['x'] ['s'] 0 = false ∧
    verify ['a', '.', 'b'] ['s'] 0 = false := by
  constructor
  · exact (verify_fails_closed ['x'] ['s'] 0).1 (by decide)
  · exact (verify_fails_closed ['a', '.', 'b'] ['s'] 0).2.1 ['a'] ['b'] []
      (by decide) (by decide)

end ModernNav
